import Mathlib

/-!
Shallow embedding of the conversation-visualizer state reconciliation core.

The definitions below are translated from the JavaScript sources:
  - conversation-ui.js  (ConversationManager: ring of three prompt/response slots)
  - chat.js             (ChatManager, the variant taking an extra data argument)
  - agent.js            (AgentManager.updateAgentInfo / restoreAgent, variant with interior)
  - the stateful PipelineManager variant (pipelineStates with isActive / currentStep)
  - the socket event router (restore_state handler and the live-event handlers)

DOM text surfaces are modelled as String fields; a DOM element that the page
binder resolves is assumed present (the HTML itself is not part of the sources).
JavaScript truthiness on optional string fields is modelled explicitly, and
console.warn calls are counted as a Nat result component.
-/

namespace Viz

/-- JS expression "x || d" for an optional string field: undefined and the
empty string are falsy and fall back to the default. -/
def jsOrStr (x : Option String) (d : String) : String :=
  match x with
  | none => d
  | some s => if s = "" then d else s

/-- Truthiness filter for an optional string: returns the value exactly when
JS "if (x)" would take the branch (present and non-empty). -/
def truthyStr? (x : Option String) : Option String :=
  match x with
  | none => none
  | some s => if s = "" then none else some s

/-! ## Conversation History Ring (conversation-ui.js) -/

/-- Payload of an llm_interaction event. prompt and response are assigned to
textContent directly; step_title and elapsed_time go through "|| placeholder". -/
structure LlmData where
  prompt : String
  step_title : Option String := none
  response : String
  elapsed_time : Option String := none
deriving DecidableEq

/-- The four textContent surfaces of one ring slot (prompt box, prompt title,
response box, response time display). -/
structure SlotText where
  promptText : String
  titleText : String
  responseText : String
  timeText : String
deriving DecidableEq

/-- Text written into slot 0 by ConversationManager.updateConversation. -/
def renderLlm (d : LlmData) : SlotText :=
  { promptText := d.prompt
    titleText := "Step: " ++ jsOrStr d.step_title "--"
    responseText := d.response
    timeText := "Time elapsed: " ++ jsOrStr d.elapsed_time "--" }

/-- The three ring slots. none models the initial placeholder content that the
page ships with, before any write reaches the slot. -/
structure Ring where
  s0 : Option SlotText
  s1 : Option SlotText
  s2 : Option SlotText
deriving DecidableEq

def emptyRing : Ring := ⟨none, none, none⟩

/-- ConversationManager.updateConversation: copy slot 1 into slot 2, slot 0
into slot 1, then write the new content into slot 0. -/
def updateConversation (r : Ring) (d : LlmData) : Ring :=
  { s0 := some (renderLlm d), s1 := r.s0, s2 := r.s1 }

/-- Number of slots whose content has been written (is not the initial
placeholder). -/
def ringCount (r : Ring) : Nat :=
  (if r.s0.isSome then 1 else 0) + (if r.s1.isSome then 1 else 0) +
    (if r.s2.isSome then 1 else 0)

/-- Process a sequence of llm_interaction pushes in order. -/
def pushAll (r : Ring) (l : List LlmData) : Ring := l.foldl updateConversation r

/-- JS list indexing "l[i] || d" as used by restoreConversationHistory. -/
def jsIdx (l : List String) (i : Nat) (d : String) : String :=
  match l[i]? with
  | none => d
  | some s => if s = "" then d else s

/-- Payload field conversation_history of a restore_state event. -/
structure History where
  prompts : List String := []
  responses : List String := []
  titles : List String := []
  times : List String := []
deriving DecidableEq

/-- Text written into slot i by ConversationManager.restoreConversationHistory. -/
def restoreSlot (h : History) (i : Nat) : SlotText :=
  { promptText := jsIdx h.prompts i ""
    titleText := "Step: " ++ jsIdx h.titles i "--"
    responseText := jsIdx h.responses i ""
    timeText := "Time elapsed: " ++ jsIdx h.times i "--" }

/-- ConversationManager.restoreConversationHistory: overwrites slots
0 .. min(prompts.length, 3) - 1 and leaves the remaining slots untouched. -/
def restoreConversationHistory (h : History) (r : Ring) : Ring :=
  { s0 := if 0 < min h.prompts.length 3 then some (restoreSlot h 0) else r.s0
    s1 := if 1 < min h.prompts.length 3 then some (restoreSlot h 1) else r.s1
    s2 := if 2 < min h.prompts.length 3 then some (restoreSlot h 2) else r.s2 }

/-! ## Chat Log (chat.js, variant with the extra data argument) -/

/-- Optional extra data of an addMessage call. -/
structure ChatExtra where
  emotion : Option String := none
  original_speech : Option String := none
deriving DecidableEq

/-- One rendered chat message element (the appended DOM node). -/
structure ChatMsg where
  cls : String
  senderText : String
  contentText : String
  contentCls : Option String
  hoverTitle : Option String
deriving DecidableEq

/-- The className computed for a message. -/
def msgClass (sender : String) (senderId : Option Int) : String :=
  if sender = "Error" then "message message-error"
  else if senderId = some 0 then "message message-left"
  else if senderId = some 1 then "message message-right"
  else "message message-system"

/-- ChatManager.addMessage. The conversation container is assumed bound.
Messages with sender "System" are skipped before any element is created:
nothing is stored and nothing is rendered. -/
def addMessage (sender message : String) (senderId : Option Int)
    (data : ChatExtra) (log : List ChatMsg) : List ChatMsg :=
  if sender = "System" then log
  else
    let displayText := match truthyStr? data.emotion with
      | some e => "[" ++ e ++ "]"
      | none => message
    let contentCls := match truthyStr? data.emotion with
      | some _ => some "emotion-display"
      | none => none
    let hoverTitle := match truthyStr? data.emotion with
      | some _ =>
        match truthyStr? data.original_speech with
        | some os => some ("Original speech: \"" ++ os ++ "\"")
        | none => none
      | none => none
    log ++ [{ cls := msgClass sender senderId, senderText := sender,
              contentText := displayText, contentCls := contentCls,
              hoverTitle := hoverTitle }]

/-- ChatManager.clearMessages: empties the container. -/
def clearMessages (_log : List ChatMsg) : List ChatMsg := []

/-! ## Agent State Reconciler (agent.js, variant with interior) -/

/-- Nested plan object of an agent patch. -/
structure Plan where
  goal : Option String := none
  active_tactic : Option String := none
  tactics : Option (List String) := none
deriving DecidableEq

/-- The interior field of a patch: either an object (whose principles
sub-field is displayed) or a plain string. An object is always truthy. -/
inductive Interior where
  | obj (principles : Option String)
  | str (s : String)
deriving DecidableEq

/-- An agent update payload. Payloads are open JS objects; active_tactic and
tactics can be carried at top level by a sender, but updateAgentInfo never
reads them there (unrecognized fields are ignored), only under plan.
Numeric tension is modelled as an integer; JS renders it with toString. -/
structure AgentPatch where
  name : Option String := none
  personality : Option String := none
  tension : Option Int := none
  goal : Option String := none
  plan : Option Plan := none
  interior : Option Interior := none
  active_tactic : Option String := none
  tactics : Option (List String) := none
deriving DecidableEq

/-- The textContent surfaces of one agent status panel. -/
structure AgentPanel where
  nameText : String
  personalityText : String
  tensionText : String
  goalText : String
  tacticText : String
  planText : String
  interiorText : String
deriving DecidableEq

/-- First guarded statement of AgentManager.updateAgentInfo:
if (data.name) set the name text. -/
def applyName (data : AgentPatch) (p : AgentPanel) : AgentPanel :=
  match truthyStr? data.name with
  | some n => { p with nameText := n }
  | none => p

/-- if (data.personality) set the personality text. -/
def applyPersonality (data : AgentPatch) (p : AgentPanel) : AgentPanel :=
  match truthyStr? data.personality with
  | some s => { p with personalityText := s }
  | none => p

/-- if (data.tension !== undefined) set the tension text: presence, not
truthiness, so zero is applied. -/
def applyTension (data : AgentPatch) (p : AgentPanel) : AgentPanel :=
  match data.tension with
  | some t => { p with tensionText := toString t }
  | none => p

/-- if (data.goal) set the goal text, else if (data.plan?.goal) use that. -/
def applyGoal (data : AgentPatch) (p : AgentPanel) : AgentPanel :=
  match truthyStr? data.goal with
  | some g => { p with goalText := g }
  | none =>
    match truthyStr? (data.plan.bind Plan.goal) with
    | some g => { p with goalText := g }
    | none => p

/-- if (data.plan?.active_tactic) set the active tactic text; a top-level
active_tactic field is never read. -/
def applyTactic (data : AgentPatch) (p : AgentPanel) : AgentPanel :=
  match truthyStr? (data.plan.bind Plan.active_tactic) with
  | some t => { p with tacticText := t }
  | none => p

/-- if (data.plan?.tactics) join the list with ", " into the plan text; an
array is truthy even when empty; a top-level tactics field is never read. -/
def applyTactics (data : AgentPatch) (p : AgentPanel) : AgentPanel :=
  match data.plan.bind Plan.tactics with
  | some l => { p with planText := String.intercalate ", " l }
  | none => p

/-- if (data.interior): an object displays its principles sub-field with a
placeholder fallback, a non-empty string is displayed verbatim. -/
def applyInterior (data : AgentPatch) (p : AgentPanel) : AgentPanel :=
  match data.interior with
  | some (.obj pr) => { p with interiorText := jsOrStr pr "--" }
  | some (.str s) => if s = "" then p else { p with interiorText := s }
  | none => p

/-- AgentManager.updateAgentInfo: the guarded field updates above, applied in
source order (name, personality, tension, goal, active tactic, tactic list,
interior). -/
def updateAgentInfo (p : AgentPanel) (data : AgentPatch) : AgentPanel :=
  applyInterior data (applyTactics data (applyTactic data (applyGoal data
    (applyTension data (applyPersonality data (applyName data p))))))

/-! ## Pipeline State Machine (stateful PipelineManager variant) -/

/-- JS Array.prototype.indexOf on a list of stage names: -1 when absent. -/
def jsIndexOf : List String → String → Int
  | [], _ => -1
  | x :: xs, s =>
    if x = s then 0
    else
      let r := jsIndexOf xs s
      if r = -1 then -1 else r + 1

/-- The data argument of updatePipelineStage. -/
structure PData where
  summary : Option String := none
deriving DecidableEq

/-- Per-agent pipeline state: the tracked pipelineStates record (components,
currentStep, isActive) together with the rendered pipeline container for that
agent (which summary elements exist, their textContent, which one carries the
class "current", and whether the container carries "pipeline-completed"). -/
structure PipeState where
  components : List String
  currentStep : Nat
  isActive : Bool
  domStages : List String
  summaryText : List (String × String)
  currentCls : Option String
  completedCls : Bool
deriving DecidableEq

/-- Initial per-agent state: components [], currentStep 0, isActive false,
and an empty pipeline container. -/
def initPipe : PipeState := ⟨[], 0, false, [], [], none, false⟩

/-- Set the textContent of the first summary element with the given id,
matching getElementById on duplicate ids. -/
def setAssoc : List (String × String) → String → String → List (String × String)
  | [], _, _ => []
  | (k, v) :: rest, key, val =>
    if k = key then (key, val) :: rest else (k, v) :: setAssoc rest key val

/-- textContent of the first summary element with the given id. -/
def lookupAssoc : List (String × String) → String → Option String
  | [], _ => none
  | (k, v) :: rest, key => if k = key then some v else lookupAssoc rest key

/-- PipelineManager.createPipelineFlow. The components argument is an optional
list: none stands for an absent or non-array value. Invalid input is a warning
with no mutation. Valid input stores the components, resets currentStep and
isActive, and rebuilds the container from scratch (innerHTML is cleared, fresh
empty summary cells are created); the class list of the container element
itself is not touched, so completedCls survives a rebuild. The second
component of the result counts console.warn calls. -/
def createPipelineFlow (p : PipeState) (components : Option (List String)) :
    PipeState × Nat :=
  match components with
  | none => (p, 1)
  | some [] => (p, 1)
  | some (c :: cs) =>
    ({ components := c :: cs, currentStep := 0, isActive := false,
       domStages := c :: cs, summaryText := (c :: cs).map (fun x => (x, "")),
       currentCls := none, completedCls := p.completedCls }, 0)

/-- PipelineManager.switchActiveFlag: when isActive is set, toggle it back
off and toggle the "pipeline-completed" class on the container. -/
def switchActiveFlag (p : PipeState) : PipeState :=
  if p.isActive then
    { p with isActive := !p.isActive, completedCls := !p.completedCls }
  else p

/-- PipelineManager.updatePipelineStage. A falsy stage is a warning with no
mutation. Otherwise currentStep is set when the stage is found in components,
the class "current" is removed from every summary of this agent, and if the
summary element for the stage exists it becomes current, its text is set when
data.summary is truthy, and when the stage index equals components.length - 1
isActive is set and switchActiveFlag is invoked. A missing element is a
warning (but the "current" markers are already cleared at that point). -/
def updatePipelineStage (p : PipeState) (stage : Option String) (data : PData) :
    PipeState × Nat :=
  match truthyStr? stage with
  | none => (p, 1)
  | some s =>
    let stageIndex := jsIndexOf p.components s
    let p1 := if stageIndex = -1 then p else { p with currentStep := stageIndex.toNat }
    let p2 := { p1 with currentCls := none }
    if s ∈ p.domStages then
      let p3 := { p2 with currentCls := some s }
      let p4 := match truthyStr? data.summary with
        | some sum =>
          { p3 with summaryText := setAssoc p3.summaryText s ("\"" ++ sum ++ "\"") }
        | none => p3
      if stageIndex = (p.components.length : Int) - 1 then
        (switchActiveFlag { p4 with isActive := true }, 0)
      else (p4, 0)
    else (p2, 1)

/-- The abstract states of the pipeline state machine, as a projection of the
concrete state: no stages means Empty; stages with no current marker means
Built; a current marker at the last position means Completed, else Running. -/
inductive PipeMachine where
  | Empty
  | Built
  | Running
  | Completed
deriving DecidableEq

def stateOf (p : PipeState) : PipeMachine :=
  if p.components = [] then .Empty
  else
    match p.currentCls with
    | none => .Built
    | some s =>
      if jsIndexOf p.components s = (p.components.length : Int) - 1 then .Completed
      else .Running

/-- The two per-agent pipeline states tracked by the manager. -/
structure TwoPipes where
  a0 : PipeState
  a1 : PipeState
deriving DecidableEq

def getPipe (w : TwoPipes) (id : Fin 2) : PipeState :=
  if id = 0 then w.a0 else w.a1

def setPipe (w : TwoPipes) (id : Fin 2) (p : PipeState) : TwoPipes :=
  if id = 0 then { w with a0 := p } else { w with a1 := p }

/-- PipelineManager.getActiveFlag. -/
def getActiveFlag (w : TwoPipes) (id : Fin 2) : Bool := (getPipe w id).isActive

/-- A call into the pipeline manager. -/
inductive PipeCall where
  | create (id : Fin 2) (components : Option (List String))
  | update (id : Fin 2) (stage : Option String) (data : PData)

/-- Execute one manager call (warnings discarded at this level). -/
def stepCall (w : TwoPipes) (c : PipeCall) : TwoPipes :=
  match c with
  | .create id comps => setPipe w id (createPipelineFlow (getPipe w id) comps).1
  | .update id stage data => setPipe w id (updatePipelineStage (getPipe w id) stage data).1

/-- Execute a sequence of manager calls from the initial state. -/
def runCalls (w : TwoPipes) (l : List PipeCall) : TwoPipes := l.foldl stepCall w

def initTwoPipes : TwoPipes := ⟨initPipe, initPipe⟩

/-! ## Event Router and Restoration Protocol (socket event handler module) -/

/-- Payload of a message or add_message event (and of a replayed restore
message). -/
structure MsgPayload where
  sender : String
  message : String
  sender_id : Option Int := none
deriving DecidableEq

/-- Nested pipeline description inside a restored agent slot. An array value
for components is truthy even when empty; none stands for absent. -/
structure PipelineSnap where
  components : Option (List String) := none
  stage : Option String := none
deriving DecidableEq

/-- One agent slot of a restore payload: an agent patch plus the optional
nested pipeline description carried on the same object. -/
structure AgentSnap where
  patch : AgentPatch := {}
  pipeline : Option PipelineSnap := none
deriving DecidableEq

/-- The restore_state payload. agent_states is an optional two-slot array,
each slot itself optional; messages is none when absent or not an array. -/
structure RestorePayload where
  agent_states : Option (Option AgentSnap × Option AgentSnap) := none
  conversation_history : Option History := none
  messages : Option (List MsgPayload) := none
deriving DecidableEq

/-- One entry of an initialize_agents payload. Agent ids are the two panel
slots, matching the source comments (0 or 1). -/
structure InitAgent where
  agent_id : Fin 2
  patch : AgentPatch := {}
  components : Option (List String) := none
deriving DecidableEq

/-- One entry of a config payload. -/
structure ConfigAgent where
  name : String
  personality : Option String := none
deriving DecidableEq

/-- The whole UI-facing state owned by the reconciliation core: the chat
container children, the two agent panels, the two pipeline states, the ring,
the module State record, and a console.warn counter. -/
structure World where
  chat : List ChatMsg
  panel0 : AgentPanel
  panel1 : AgentPanel
  pipes : TwoPipes
  ring : Ring
  conversationActive : Bool
  currentConversationId : Option String
  stateName0 : Option String
  stateName1 : Option String
  warns : Nat
deriving DecidableEq

def getPanel (w : World) (id : Fin 2) : AgentPanel :=
  if id = 0 then w.panel0 else w.panel1

def setPanel (w : World) (id : Fin 2) (p : AgentPanel) : World :=
  if id = 0 then { w with panel0 := p } else { w with panel1 := p }

/-- Run a pipeline-manager operation on one agent slot, accumulating its
warning count. -/
def modPipe (w : World) (id : Fin 2) (f : PipeState → PipeState × Nat) : World :=
  { w with pipes := setPipe w.pipes id (f (getPipe w.pipes id)).1,
           warns := w.warns + (f (getPipe w.pipes id)).2 }

/-- AgentManager.restoreAgent: apply the patch to the panel, and when the
snapshot carries a pipeline whose components field is present, rebuild the
pipeline and, when the stage field is truthy, advance to it. -/
def restoreAgent (w : World) (s : AgentSnap) (id : Fin 2) : World :=
  let w1 := setPanel w id (updateAgentInfo (getPanel w id) s.patch)
  match s.pipeline with
  | none => w1
  | some pl =>
    match pl.components with
    | none => w1
    | some comps =>
      let w2 := modPipe w1 id (fun ps => createPipelineFlow ps (some comps))
      match truthyStr? pl.stage with
      | none => w2
      | some st => modPipe w2 id (fun ps => updatePipelineStage ps (some st) {})

/-- The restore_state handler: clear the chat container, restore each present
agent slot (also copying a truthy name into the State record), bulk-load the
ring when conversation_history is present, then replay messages in order. -/
def restoreState (w : World) (d : RestorePayload) : World :=
  let w1 := { w with chat := clearMessages w.chat }
  let w2 := match d.agent_states with
    | none => w1
    | some (a0, a1) =>
      let wA := match a0 with
        | none => w1
        | some s =>
          let wr := restoreAgent w1 s 0
          match truthyStr? s.patch.name with
          | some n => { wr with stateName0 := some n }
          | none => wr
      match a1 with
      | none => wA
      | some s =>
        let wr := restoreAgent wA s 1
        match truthyStr? s.patch.name with
        | some n => { wr with stateName1 := some n }
        | none => wr
  let w3 := match d.conversation_history with
    | none => w2
    | some h => { w2 with ring := restoreConversationHistory h w2.ring }
  match d.messages with
  | none => w3
  | some msgs =>
    { w3 with
      chat := msgs.foldl (fun log m => addMessage m.sender m.message m.sender_id {} log) w3.chat }

/-- One entry of initialize_agents: patch the panel, create the pipeline when
components is a non-empty array, and replace the State record for that agent
with a record holding the (possibly absent) payload name. -/
def processInitAgent (w : World) (a : InitAgent) : World :=
  let w1 := setPanel w a.agent_id (updateAgentInfo (getPanel w a.agent_id) a.patch)
  let w2 := match a.components with
    | some (c :: cs) => modPipe w1 a.agent_id (fun ps => createPipelineFlow ps (some (c :: cs)))
    | _ => w1
  if a.agent_id = 0 then { w2 with stateName0 := a.patch.name }
  else { w2 with stateName1 := a.patch.name }

/-- The named events the router subscribes to, with the payload fields each
handler reads. -/
inductive Event where
  | llm_interaction (d : LlmData)
  | message (m : MsgPayload)
  | add_message (m : MsgPayload)
  | conversation_status (active : Bool) (conversation_id : Option String) (status : String)
  | update_agent1 (d : AgentPatch)
  | update_agent2 (d : AgentPatch)
  | agent_update (agent_id : Fin 2) (d : AgentPatch)
  | pipeline_update (agent_id : Fin 2) (stage : Option String) (data : Option PData)
  | init_agents (agents : List InitAgent)
  | config (agents : List ConfigAgent)
  | restore_state (d : RestorePayload)

/-- The router dispatch, one case per socket.on handler. In the agent_update
handler the State record is rebuilt as a spread of the existing record over
the new name, so the existing name (always present, the State module seeds
both records) wins and the record is unchanged. -/
def processEvent (w : World) (e : Event) : World :=
  match e with
  | .llm_interaction d => { w with ring := updateConversation w.ring d }
  | .message m => { w with chat := addMessage m.sender m.message m.sender_id {} w.chat }
  | .add_message m => { w with chat := addMessage m.sender m.message m.sender_id {} w.chat }
  | .conversation_status active cid status =>
    let w1 := { w with conversationActive := active, currentConversationId := cid }
    { w1 with chat := addMessage "System" ("Conversation status: " ++ status) none {} w1.chat }
  | .update_agent1 d => setPanel w 0 (updateAgentInfo (getPanel w 0) d)
  | .update_agent2 d => setPanel w 1 (updateAgentInfo (getPanel w 1) d)
  | .agent_update id d => setPanel w id (updateAgentInfo (getPanel w id) d)
  | .pipeline_update id stage pdata =>
    (match truthyStr? stage with
     | some st => modPipe w id (fun ps => updatePipelineStage ps (some st) (pdata.getD {}))
     | none => w)
  | .init_agents agents => agents.foldl processInitAgent w
  | .config agents =>
    (match agents with
     | c1 :: c2 :: _ =>
       { w with
         panel0 := { w.panel0 with nameText := c1.name,
                                   personalityText := jsOrStr c1.personality "--" }
         panel1 := { w.panel1 with nameText := c2.name,
                                   personalityText := jsOrStr c2.personality "--" } }
     | _ => w)
  | .restore_state d => restoreState w d

/-- Process a list of events in arrival order. -/
def processEvents (w : World) (l : List Event) : World := l.foldl processEvent w

/-- Initial surfaces: the page placeholders (the HTML itself is not among the
sources; the placeholder text is the spec default and is shared by any two
runs compared below), with the State module seed names. -/
def initPanel : AgentPanel := ⟨"--", "--", "--", "--", "--", "--", "--"⟩

def initWorld : World :=
  { chat := [], panel0 := initPanel, panel1 := initPanel,
    pipes := initTwoPipes, ring := emptyRing,
    conversationActive := false, currentConversationId := none,
    stateName0 := some "Agent 1", stateName1 := some "Agent 2", warns := 0 }

/-! ## Ring lemmas and claim C5 -/

/-- Occupancy is left-aligned: a written slot never sits to the right of an
unwritten one. -/
def leftFilled (r : Ring) : Prop :=
  (r.s1.isSome → r.s0.isSome) ∧ (r.s2.isSome → r.s1.isSome)

lemma ringCount_le_three (r : Ring) : ringCount r ≤ 3 := by
  rcases r with ⟨s0, s1, s2⟩
  cases s0 <;> cases s1 <;> cases s2 <;> simp [ringCount]

lemma leftFilled_emptyRing : leftFilled emptyRing := by
  simp [leftFilled, emptyRing]

lemma leftFilled_updateConversation (r : Ring) (d : LlmData) (h : leftFilled r) :
    leftFilled (updateConversation r d) := by
  refine ⟨fun _ => ?_, fun h2 => ?_⟩
  · simp [updateConversation]
  · simpa [updateConversation] using h.1 (by simpa [updateConversation] using h2)

lemma ringCount_updateConversation (r : Ring) (d : LlmData) (h : leftFilled r) :
    ringCount (updateConversation r d) = min 3 (ringCount r + 1) := by
  rcases r with ⟨s0, s1, s2⟩
  rcases h with ⟨h1, h2⟩
  cases s0 <;> cases s1 <;> cases s2 <;>
    simp_all [ringCount, updateConversation]

lemma ringCount_pushAll (l : List LlmData) :
    ∀ r : Ring, leftFilled r →
      ringCount (pushAll r l) = min 3 (ringCount r + l.length) := by
  induction l with
  | nil =>
    intro r _
    have := ringCount_le_three r
    simp [pushAll]
    omega
  | cons x xs ih =>
    intro r h
    have hstep : pushAll r (x :: xs) = pushAll (updateConversation r x) xs := rfl
    rw [hstep, ih _ (leftFilled_updateConversation r x h),
        ringCount_updateConversation r x h]
    have := ringCount_le_three r
    simp only [List.length_cons]
    omega

/-- C5: for every sequence of push calls, after each call the ring holds
exactly min(3, totalPushes) entries; each push shifts slot 0 to slot 1 and
slot 1 to slot 2, discards the prior content of slot 2, and places the new
entry in slot 0, which therefore always equals the most recently pushed
entry. -/
theorem ring_invariant (l : List LlmData) (d : LlmData) :
    ringCount (pushAll emptyRing l) = min 3 l.length ∧
    pushAll emptyRing (l ++ [d]) =
      { s0 := some (renderLlm d), s1 := (pushAll emptyRing l).s0,
        s2 := (pushAll emptyRing l).s1 } := by
  constructor
  · have := ringCount_pushAll l emptyRing leftFilled_emptyRing
    simpa [emptyRing, ringCount] using this
  · simp [pushAll, List.foldl_append, updateConversation]

/-! ## Chat claim C4 -/

/-- C4 counterexample: appending a message whose sender is "System" does not
increase the stored chat log length by 1: the message is dropped before any
element is created, so the log is left at its prior length. -/
theorem chat_system_suppression_counterexample :
    ¬ ((addMessage "System" "hello" none {} []).length =
        ([] : List ChatMsg).length + 1) := by decide

/-- C4 amended: an append whose sender is "System" leaves the stored chat log
unchanged and produces zero render calls — system-tagged messages are dropped
entirely (storage suppression as well as rendering suppression), not accepted
into the log. -/
theorem chat_system_messages_dropped (message : String) (senderId : Option Int)
    (data : ChatExtra) (log : List ChatMsg) :
    addMessage "System" message senderId data log = log := by
  simp [addMessage]

/-! ## Agent reconciler claims C2, C7, C8 -/

lemma applyName_goalText (d : AgentPatch) (p : AgentPanel) :
    (applyName d p).goalText = p.goalText := by
  unfold applyName; split <;> rfl

lemma applyPersonality_goalText (d : AgentPatch) (p : AgentPanel) :
    (applyPersonality d p).goalText = p.goalText := by
  unfold applyPersonality; split <;> rfl

lemma applyTension_goalText (d : AgentPatch) (p : AgentPanel) :
    (applyTension d p).goalText = p.goalText := by
  unfold applyTension; split <;> rfl

lemma applyTactic_goalText (d : AgentPatch) (p : AgentPanel) :
    (applyTactic d p).goalText = p.goalText := by
  unfold applyTactic; split <;> rfl

lemma applyTactics_goalText (d : AgentPatch) (p : AgentPanel) :
    (applyTactics d p).goalText = p.goalText := by
  unfold applyTactics; split <;> rfl

lemma applyInterior_goalText (d : AgentPatch) (p : AgentPanel) :
    (applyInterior d p).goalText = p.goalText := by
  unfold applyInterior; (repeat' split) <;> rfl

lemma applyGoal_goalText (d : AgentPatch) (p : AgentPanel) :
    (applyGoal d p).goalText =
      (match truthyStr? d.goal with
       | some g => g
       | none =>
         match truthyStr? (d.plan.bind Plan.goal) with
         | some g => g
         | none => p.goalText) := by
  unfold applyGoal; (repeat' split) <;> rfl

lemma applyName_tacticText (d : AgentPatch) (p : AgentPanel) :
    (applyName d p).tacticText = p.tacticText := by
  unfold applyName; split <;> rfl

lemma applyPersonality_tacticText (d : AgentPatch) (p : AgentPanel) :
    (applyPersonality d p).tacticText = p.tacticText := by
  unfold applyPersonality; split <;> rfl

lemma applyTension_tacticText (d : AgentPatch) (p : AgentPanel) :
    (applyTension d p).tacticText = p.tacticText := by
  unfold applyTension; split <;> rfl

lemma applyGoal_tacticText (d : AgentPatch) (p : AgentPanel) :
    (applyGoal d p).tacticText = p.tacticText := by
  unfold applyGoal; (repeat' split) <;> rfl

lemma applyTactics_tacticText (d : AgentPatch) (p : AgentPanel) :
    (applyTactics d p).tacticText = p.tacticText := by
  unfold applyTactics; split <;> rfl

lemma applyInterior_tacticText (d : AgentPatch) (p : AgentPanel) :
    (applyInterior d p).tacticText = p.tacticText := by
  unfold applyInterior; (repeat' split) <;> rfl

lemma applyTactic_tacticText (d : AgentPatch) (p : AgentPanel) :
    (applyTactic d p).tacticText =
      (match truthyStr? (d.plan.bind Plan.active_tactic) with
       | some t => t
       | none => p.tacticText) := by
  unfold applyTactic; split <;> rfl

lemma applyName_planText (d : AgentPatch) (p : AgentPanel) :
    (applyName d p).planText = p.planText := by
  unfold applyName; split <;> rfl

lemma applyPersonality_planText (d : AgentPatch) (p : AgentPanel) :
    (applyPersonality d p).planText = p.planText := by
  unfold applyPersonality; split <;> rfl

lemma applyTension_planText (d : AgentPatch) (p : AgentPanel) :
    (applyTension d p).planText = p.planText := by
  unfold applyTension; split <;> rfl

lemma applyGoal_planText (d : AgentPatch) (p : AgentPanel) :
    (applyGoal d p).planText = p.planText := by
  unfold applyGoal; (repeat' split) <;> rfl

lemma applyTactic_planText (d : AgentPatch) (p : AgentPanel) :
    (applyTactic d p).planText = p.planText := by
  unfold applyTactic; split <;> rfl

lemma applyInterior_planText (d : AgentPatch) (p : AgentPanel) :
    (applyInterior d p).planText = p.planText := by
  unfold applyInterior; (repeat' split) <;> rfl

lemma applyTactics_planText (d : AgentPatch) (p : AgentPanel) :
    (applyTactics d p).planText =
      (match d.plan.bind Plan.tactics with
       | some l => String.intercalate ", " l
       | none => p.planText) := by
  unfold applyTactics; split <;> rfl

/-- C2 counterexample: presence does not decide overwrite for the goal field.
The patch carries goal explicitly (an empty string), yet the prior panel value
is kept: the source guards goal with truthiness, so a present falsy value is
not applied. Under the claim the resulting goal text would be the carried
empty string. -/
theorem patch_presence_counterexample :
    (updateAgentInfo initPanel { goal := some "" }).goalText = "--" ∧
    ("--" : String) ≠ "" := by decide

/-- C2 amended: applyUpdate overwrites only the fields carried by the patch
and leaves absent fields at their prior values; for tension presence (not
truthiness) decides overwrite, so a tension of 0 is still applied, and the
spec scenario (tension 5 then goal "x") holds for any non-empty goal string;
but for the string fields (name, personality, goal, interior) a present falsy
value (the empty string) is not applied — truthiness, not presence, decides
those. -/
theorem patch_non_destructive_amended (p : AgentPanel) (t : Int) (g : String)
    (hg : g ≠ "") :
    updateAgentInfo p { tension := some t } = { p with tensionText := toString t } ∧
    updateAgentInfo p {} = p ∧
    (updateAgentInfo (updateAgentInfo p { tension := some t })
        { goal := some g }).tensionText = toString t ∧
    (updateAgentInfo (updateAgentInfo p { tension := some t })
        { goal := some g }).goalText = g := by
  refine ⟨?_, ?_, ?_, ?_⟩ <;>
    simp [updateAgentInfo, applyName, applyPersonality, applyTension, applyGoal,
          applyTactic, applyTactics, applyInterior, truthyStr?, hg]

theorem patch_non_destructive_amended_witness :
    ("x" : String) ≠ "" ∧
    (updateAgentInfo initPanel { tension := some 0 } =
        { initPanel with tensionText := toString (0 : Int) } ∧
      updateAgentInfo initPanel {} = initPanel ∧
      (updateAgentInfo (updateAgentInfo initPanel { tension := some 0 })
          { goal := some "x" }).tensionText = toString (0 : Int) ∧
      (updateAgentInfo (updateAgentInfo initPanel { tension := some 0 })
          { goal := some "x" }).goalText = "x") :=
  ⟨by decide, patch_non_destructive_amended initPanel 0 "x" (by decide)⟩

/-- C7 counterexample: a patch that carries goal explicitly (as the empty
string) together with a nested plan goal ends with the plan goal displayed:
the present direct field did not win, because the source tests the direct
field with truthiness. Under the claim the carried direct value (the empty
string) would win. -/
theorem goal_resolution_counterexample :
    (updateAgentInfo initPanel
        { goal := some "", plan := some { goal := some "y" } }).goalText = "y" ∧
    ("y" : String) ≠ "" := by decide

/-- C7 amended: goal resolution is by truthiness, not presence: a truthy
patch.goal wins; otherwise a truthy patch.plan.goal is used; otherwise the
goal is unchanged. A present but falsy (empty string) value counts as absent
at each step. -/
theorem goal_resolution_amended (p : AgentPanel) (q : AgentPatch) :
    (updateAgentInfo p q).goalText =
      (match truthyStr? q.goal with
       | some g => g
       | none =>
         match truthyStr? (q.plan.bind Plan.goal) with
         | some g => g
         | none => p.goalText) := by
  unfold updateAgentInfo
  rw [applyInterior_goalText, applyTactics_goalText, applyTactic_goalText,
      applyGoal_goalText, applyTension_goalText, applyPersonality_goalText,
      applyName_goalText]

/-- C8 counterexample: a direct active_tactic field on the patch does not win
over (or even participate in) tactic resolution: the source reads the active
tactic only from patch.plan, so a patch carrying only a top-level
active_tactic leaves the displayed tactic unchanged. Under the claim the
direct field would be applied. -/
theorem tactic_resolution_counterexample :
    (updateAgentInfo initPanel { active_tactic := some "direct" }).tacticText = "--" ∧
    ("--" : String) ≠ "direct" := by decide

/-- C8 amended: the active tactic and the tactic list are resolved only from
the plan-nested fields: a truthy patch.plan.active_tactic is applied (a direct
patch.active_tactic is ignored), a present patch.plan.tactics list is applied,
joined with the fixed separator ", " (a direct patch.tactics is ignored), and
with neither present the values are unchanged. -/
theorem tactic_resolution_amended (p : AgentPanel) (q : AgentPatch) :
    (updateAgentInfo p q).tacticText =
      (match truthyStr? (q.plan.bind Plan.active_tactic) with
       | some t => t
       | none => p.tacticText) ∧
    (updateAgentInfo p q).planText =
      (match q.plan.bind Plan.tactics with
       | some l => String.intercalate ", " l
       | none => p.planText) := by
  constructor
  · unfold updateAgentInfo
    rw [applyInterior_tacticText, applyTactics_tacticText, applyTactic_tacticText,
        applyGoal_tacticText, applyTension_tacticText, applyPersonality_tacticText,
        applyName_tacticText]
  · unfold updateAgentInfo
    rw [applyInterior_planText, applyTactics_planText, applyTactic_planText,
        applyGoal_planText, applyTension_planText, applyPersonality_planText,
        applyName_planText]

/-! ## Pipeline lemmas and claims C3, C6, C9, C10 -/

lemma jsIndexOf_ge_neg_one (l : List String) (s : String) :
    -1 ≤ jsIndexOf l s := by
  induction l with
  | nil => simp [jsIndexOf]
  | cons x xs ih =>
    simp only [jsIndexOf]
    split
    · omega
    · split <;> omega

lemma jsIndexOf_eq_neg_one_iff (l : List String) (s : String) :
    jsIndexOf l s = -1 ↔ s ∉ l := by
  induction l with
  | nil => simp [jsIndexOf]
  | cons x xs ih =>
    simp only [jsIndexOf, List.mem_cons]
    by_cases hx : x = s
    · simp [hx]
    · rw [if_neg hx]
      by_cases hr : jsIndexOf xs s = -1
      · simp only [hr, if_pos rfl]
        have hxs := ih.mp hr
        have hsx : ¬ s = x := fun h => hx h.symm
        simp [hxs, hsx]
      · rw [if_neg hr]
        have h1 := jsIndexOf_ge_neg_one xs s
        have hmem : s ∈ xs := by
          by_contra hn
          exact hr (ih.mpr hn)
        constructor
        · intro h; omega
        · intro h; exact absurd (Or.inr hmem) h

/-- The fields of a last-stage update: under a pipeline whose rendered stages
agree with its tracked components, updating to the stage sitting at position
components.length - 1 keeps the stages, marks that stage current, ends with
isActive off (set, then immediately toggled back by switchActiveFlag), and
toggles the completed class of the container. -/
lemma updatePipelineStage_last (p : PipeState) (d : PData) (s : String)
    (hsync : p.domStages = p.components) (hs : s ≠ "")
    (hmem : s ∈ p.components)
    (hlast : jsIndexOf p.components s = (p.components.length : Int) - 1) :
    ((updatePipelineStage p (some s) d).1).components = p.components ∧
    ((updatePipelineStage p (some s) d).1).domStages = p.domStages ∧
    ((updatePipelineStage p (some s) d).1).currentCls = some s ∧
    ((updatePipelineStage p (some s) d).1).isActive = false ∧
    ((updatePipelineStage p (some s) d).1).completedCls = !p.completedCls := by
  have hlen : p.components ≠ [] := by
    intro hnil; rw [hnil] at hmem; simp at hmem
  have hpos : 0 < p.components.length := List.length_pos.mpr hlen
  have hne : ¬ jsIndexOf p.components s = -1 := by rw [hlast]; omega
  have hdom : s ∈ p.domStages := by rw [hsync]; exact hmem
  have hstr : truthyStr? (some s) = some s := by simp [truthyStr?, hs]
  simp only [updatePipelineStage, hstr, if_neg hne, if_pos hdom, if_pos hlast]
  cases hsum : truthyStr? d.summary <;> simp [switchActiveFlag]

/-- C3: on a built pipeline whose rendered stages agree with its tracked
components, a setActiveStage naming the stage at position stages.length - 1
transitions the derived machine state to Completed and toggles the rendered
completion flag (the pipeline-completed class) exactly once — XOR, not forced
to true — so a second last-stage event toggles it back to its original
value. -/
theorem pipeline_completion_toggle (p : PipeState) (d d' : PData) (s : String)
    (hsync : p.domStages = p.components) (hs : s ≠ "")
    (hmem : s ∈ p.components)
    (hlast : jsIndexOf p.components s = (p.components.length : Int) - 1) :
    stateOf (updatePipelineStage p (some s) d).1 = PipeMachine.Completed ∧
    ((updatePipelineStage p (some s) d).1).completedCls = !p.completedCls ∧
    ((updatePipelineStage (updatePipelineStage p (some s) d).1
        (some s) d').1).completedCls = p.completedCls := by
  obtain ⟨hc, hd, hcur, _, hcls⟩ := updatePipelineStage_last p d s hsync hs hmem hlast
  have hlen : p.components ≠ [] := by
    intro hnil; rw [hnil] at hmem; simp at hmem
  refine ⟨?_, hcls, ?_⟩
  · unfold stateOf
    rw [hc, hcur, if_neg hlen]
    simp [hlast]
  · obtain ⟨_, _, _, _, hcls2⟩ :=
      updatePipelineStage_last (updatePipelineStage p (some s) d).1 d' s
        (by rw [hd, hc, hsync]) hs (by rw [hc]; exact hmem)
        (by rw [hc]; exact hlast)
    rw [hcls2, hcls, Bool.not_not]

/-- A concrete pipeline as built by createPipelineFlow for agent stages
a, b, c. -/
def pipelineABC : PipeState := (createPipelineFlow initPipe (some ["a", "b", "c"])).1

/-- The concrete pipeline after advancing to stage b. -/
def pipelineAtB : PipeState := (updatePipelineStage pipelineABC (some "b") {}).1

theorem pipeline_completion_toggle_witness :
    (pipelineAtB.domStages = pipelineAtB.components ∧ ("c" : String) ≠ "" ∧
      "c" ∈ pipelineAtB.components ∧
      jsIndexOf pipelineAtB.components "c" = (pipelineAtB.components.length : Int) - 1) ∧
    (stateOf (updatePipelineStage pipelineAtB (some "c") {}).1 = PipeMachine.Completed ∧
      ((updatePipelineStage pipelineAtB (some "c") {}).1).completedCls = !pipelineAtB.completedCls ∧
      ((updatePipelineStage (updatePipelineStage pipelineAtB (some "c") {}).1
          (some "c") {}).1).completedCls = pipelineAtB.completedCls) :=
  ⟨⟨by decide, by decide, by decide, by decide⟩,
    pipeline_completion_toggle pipelineAtB {} {} "c"
      (by decide) (by decide) (by decide) (by decide)⟩

/-- C6 counterexample: on the pipeline built from stages a, b, c and advanced
to stage b, a setActiveStage with the unknown stage zzz is not a no-op: the
resulting state differs from the prior state, because the class current is
removed from every summary before the stage lookup, so stage b loses its
marker. -/
theorem unknown_stage_counterexample :
    (updatePipelineStage pipelineAtB (some "zzz") {}).1 ≠ pipelineAtB := by decide

/-- C6 amended: a setActiveStage whose stage is falsy is a logged warning
with no mutation at all; one whose stage is not among the stages leaves
activeIndex (currentStep) and every tracked field unchanged and raises no
exception, but it does clear the rendered current-stage marker (the class
current is removed from every summary before the failed lookup), and it
produces a logged warning. -/
theorem unknown_stage_amended (p : PipeState) (d : PData) (s : String)
    (hsync : p.domStages = p.components) (hs : s ≠ "")
    (hmem : s ∉ p.components) :
    updatePipelineStage p none d = (p, 1) ∧
    updatePipelineStage p (some "") d = (p, 1) ∧
    updatePipelineStage p (some s) d = ({ p with currentCls := none }, 1) := by
  have hidx : jsIndexOf p.components s = -1 := (jsIndexOf_eq_neg_one_iff _ _).mpr hmem
  have hdom : s ∉ p.domStages := by rw [hsync]; exact hmem
  refine ⟨rfl, by simp [updatePipelineStage, truthyStr?], ?_⟩
  unfold updatePipelineStage
  simp only [truthyStr?, if_neg hs, if_pos hidx, if_neg hdom]

theorem unknown_stage_amended_witness :
    (pipelineAtB.domStages = pipelineAtB.components ∧ ("zzz" : String) ≠ "" ∧
      "zzz" ∉ pipelineAtB.components) ∧
    (updatePipelineStage pipelineAtB none {} = (pipelineAtB, 1) ∧
      updatePipelineStage pipelineAtB (some "") {} = (pipelineAtB, 1) ∧
      updatePipelineStage pipelineAtB (some "zzz") {} =
        ({ pipelineAtB with currentCls := none }, 1)) :=
  ⟨⟨by decide, by decide, by decide⟩,
    unknown_stage_amended pipelineAtB {} "zzz" (by decide) (by decide) (by decide)⟩

lemma lookupAssoc_map_self (cs : List String) (c : String) (hc : c ∈ cs) :
    lookupAssoc (cs.map fun x => (x, "")) c = some "" := by
  induction cs with
  | nil => simp at hc
  | cons x xs ih =>
    simp only [List.map_cons, lookupAssoc]
    by_cases h : x = c
    · simp [h]
    · have hxs : c ∈ xs := by
        rcases List.mem_cons.mp hc with h' | h'
        · exact absurd h'.symm h
        · exact h'
      simp [h, ih hxs]

/-- C9: createPipelineFlow with an absent/non-array components value or an
empty list is a logged warning with no state mutation; with a non-empty stage
list it warns nothing, sets the derived machine state to Built, resets the
rendered active marker to none and currentStep to 0, resets the completion
flag (the tracked isActive field) to false, and clears every summary cell
(each stage looks up to empty text in the rebuilt container). -/
theorem create_pipeline_reset (p : PipeState) (c : String) (cs : List String)
    (hc : c ∈ cs) :
    createPipelineFlow p none = (p, 1) ∧
    createPipelineFlow p (some []) = (p, 1) ∧
    (createPipelineFlow p (some cs)).2 = 0 ∧
    stateOf (createPipelineFlow p (some cs)).1 = PipeMachine.Built ∧
    ((createPipelineFlow p (some cs)).1).currentCls = none ∧
    ((createPipelineFlow p (some cs)).1).currentStep = 0 ∧
    ((createPipelineFlow p (some cs)).1).isActive = false ∧
    lookupAssoc ((createPipelineFlow p (some cs)).1).summaryText c = some "" := by
  obtain ⟨x, xs, rfl⟩ : ∃ x xs, cs = x :: xs := by
    cases cs with
    | nil => simp at hc
    | cons x xs => exact ⟨x, xs, rfl⟩
  refine ⟨rfl, rfl, rfl, ?_, rfl, rfl, rfl, ?_⟩
  · simp [createPipelineFlow, stateOf]
  · exact lookupAssoc_map_self (x :: xs) c hc

theorem create_pipeline_reset_witness :
    ("a" : String) ∈ ["a", "b", "c"] ∧
    (createPipelineFlow initPipe none = (initPipe, 1) ∧
      createPipelineFlow initPipe (some []) = (initPipe, 1) ∧
      (createPipelineFlow initPipe (some ["a", "b", "c"])).2 = 0 ∧
      stateOf (createPipelineFlow initPipe (some ["a", "b", "c"])).1 = PipeMachine.Built ∧
      ((createPipelineFlow initPipe (some ["a", "b", "c"])).1).currentCls = none ∧
      ((createPipelineFlow initPipe (some ["a", "b", "c"])).1).currentStep = 0 ∧
      ((createPipelineFlow initPipe (some ["a", "b", "c"])).1).isActive = false ∧
      lookupAssoc ((createPipelineFlow initPipe (some ["a", "b", "c"])).1).summaryText "a"
        = some "") :=
  ⟨by decide, create_pipeline_reset initPipe "a" ["a", "b", "c"] (by decide)⟩

lemma createPipelineFlow_isActive_false (p : PipeState) (c : Option (List String))
    (h : p.isActive = false) :
    ((createPipelineFlow p c).1).isActive = false := by
  cases c with
  | none => simpa [createPipelineFlow] using h
  | some l =>
    cases l with
    | nil => simpa [createPipelineFlow] using h
    | cons x xs => rfl

lemma updatePipelineStage_isActive_false (p : PipeState) (stage : Option String)
    (d : PData) (h : p.isActive = false) :
    ((updatePipelineStage p stage d).1).isActive = false := by
  unfold updatePipelineStage
  cases htr : truthyStr? stage with
  | none => simpa using h
  | some s =>
    by_cases hdom : s ∈ p.domStages
    · by_cases hidx : jsIndexOf p.components s = -1 <;>
        by_cases hlast : jsIndexOf p.components s = (p.components.length : Int) - 1 <;>
          cases hsum : truthyStr? d.summary <;>
            simp [hdom, hidx, hlast, switchActiveFlag, h]
      all_goals try (split <;> simp)
    · by_cases hidx : jsIndexOf p.components s = -1 <;> simp [hdom, hidx, h]

lemma stepCall_preserves_inactive (w : TwoPipes) (c : PipeCall)
    (h0 : w.a0.isActive = false) (h1 : w.a1.isActive = false) :
    (stepCall w c).a0.isActive = false ∧ (stepCall w c).a1.isActive = false := by
  cases c with
  | create id comps =>
    fin_cases id <;>
      simp_all [stepCall, setPipe, getPipe, createPipelineFlow_isActive_false]
  | update id stage data =>
    fin_cases id <;>
      simp_all [stepCall, setPipe, getPipe, updatePipelineStage_isActive_false]

/-- C10: in every state reachable from the initial pipeline-manager state by
any sequence of createPipelineFlow and updatePipelineStage calls, the tracked
isActive flag of both agents is false once the call returns (getActiveFlag
always answers false): the completion path sets it and switchActiveFlag
immediately toggles it back, and only the rendered pipeline-completed class
alternates. -/
theorem pipeline_isActive_invariant (calls : List PipeCall) (id : Fin 2) :
    getActiveFlag (runCalls initTwoPipes calls) id = false := by
  suffices h : ∀ w : TwoPipes, w.a0.isActive = false → w.a1.isActive = false →
      ∀ j : Fin 2, getActiveFlag (runCalls w calls) j = false by
    exact h initTwoPipes rfl rfl id
  induction calls with
  | nil =>
    intro w h0 h1 j
    fin_cases j <;> simp_all [runCalls, getActiveFlag, getPipe]
  | cons cl rest ih =>
    intro w h0 h1 j
    have hstep : runCalls w (cl :: rest) = runCalls (stepCall w cl) rest := rfl
    obtain ⟨g0, g1⟩ := stepCall_preserves_inactive w cl h0 h1
    rw [hstep]
    exact ih (stepCall w cl) g0 g1 j

/-! ## Restoration claim C1 -/

lemma setPanel_chat (w : World) (id : Fin 2) (p : AgentPanel) :
    (setPanel w id p).chat = w.chat := by
  unfold setPanel; split <;> rfl

lemma modPipe_chat (w : World) (id : Fin 2) (f : PipeState → PipeState × Nat) :
    (modPipe w id f).chat = w.chat := rfl

lemma restoreAgent_chat (w : World) (s : AgentSnap) (id : Fin 2) :
    (restoreAgent w s id).chat = w.chat := by
  unfold restoreAgent
  repeat' split
  all_goals simp [setPanel_chat, modPipe_chat]

/-- The chat log left by the restore_state handler is a function of the
payload alone: the log is cleared first, no agent or ring restoration touches
it, and the payload messages are replayed into the empty log. -/
lemma restoreState_chat (w : World) (d : RestorePayload) :
    (restoreState w d).chat =
      (d.messages.getD []).foldl
        (fun log m => addMessage m.sender m.message m.sender_id {} log) [] := by
  unfold restoreState clearMessages
  repeat' split
  all_goals simp_all [restoreAgent_chat, setPanel_chat, modPipe_chat]

/-- C1 counterexample: restore is not atomic with respect to prior state: the
same restore event (an empty payload) applied after two different prior
histories — one llm_interaction event versus none — yields different UI
states, because the restore handler only overwrites what the payload carries
(here, nothing beyond clearing the chat log: the ring keeps slot 0 from the
prior event in one run and not in the other). -/
theorem restore_atomicity_counterexample :
    processEvent (processEvent initWorld
        (Event.llm_interaction { prompt := "p", response := "r" }))
      (Event.restore_state {}) ≠
    processEvent initWorld (Event.restore_state {}) := by decide

/-- C1 amended: the chat log after a restore depends only on the restore
payload — for any two prior states, processing the same restore event leaves
identical chat logs (cleared, then the payload messages replayed in order).
The other surfaces (agent panels, pipelines, ring slots, module State) are
overwritten only where the payload carries data, so fields and slots absent
from the payload retain their pre-restore values and may differ between runs
with different prior histories. -/
theorem restore_chat_depends_only_on_payload (d : RestorePayload) (w w' : World) :
    (restoreState w d).chat = (restoreState w' d).chat := by
  rw [restoreState_chat, restoreState_chat]

end Viz
